import Mathlib

/-!
Shallow embedding of the BioCopilot AI chat subsystem.

The definitions below are translated from the frontend sources:
  * `src/types/aiSafety.ts` (safety levels, `AIActionResponse`, zone predicates),
  * `src/components/AIChatPanel.tsx` (message model, proposal ingestion,
    proposal resolution, parent/child chat-history reconciliation, inbound
    response processing with its staleness guard and content formatting),
  * `src/utils/evidenceRenderer.tsx` (entity-tag / markdown-ish renderer).

JavaScript strings are modeled as Lean `String`; JSON payloads as the `JVal`
type; JS `undefined` as `Option.none`; JS truthiness is modeled explicitly
where the source relies on it.  JSON numbers are modeled as integers (they
only flow into display strings).  The i18n translation function `t` is
modeled as the identity on its English key, and React keys (pure render
bookkeeping) are not modeled.
-/

/-- JSON-like runtime values, modeling the `any`-typed payloads
(`tool_args`, `tool_result`, `result`) that flow through the panel. -/
inductive JVal where
  | jnull
  | jbool (b : Bool)
  | jnum (n : Int)
  | jstr (s : String)
  | jarr (elems : List JVal)
  | jobj (fields : List (String × JVal))
deriving Repr

mutual

/-- Structural equality on JSON values (manual, so that it reduces). -/
def JVal.beq : JVal → JVal → Bool
  | .jnull, .jnull => true
  | .jbool a, .jbool b => a == b
  | .jnum a, .jnum b => a == b
  | .jstr a, .jstr b => a == b
  | .jarr xs, .jarr ys => JVal.beqList xs ys
  | .jobj xs, .jobj ys => JVal.beqFields xs ys
  | _, _ => false

def JVal.beqList : List JVal → List JVal → Bool
  | [], [] => true
  | x :: xs, y :: ys => JVal.beq x y && JVal.beqList xs ys
  | _, _ => false

def JVal.beqFields : List (String × JVal) → List (String × JVal) → Bool
  | [], [] => true
  | (k, v) :: xs, (l, w) :: ys => k == l && JVal.beq v w && JVal.beqFields xs ys
  | _, _ => false

end

instance : BEq JVal := ⟨JVal.beq⟩

mutual

/-- JS `String(v)` coercion on JSON values (template-literal interpolation).
Arrays stringify as their elements joined with commas, where `null`
elements contribute the empty string; objects become `[object Object]`. -/
def jsToString : JVal → String
  | .jnull => "null"
  | .jbool b => if b then "true" else "false"
  | .jnum n => toString n
  | .jstr s => s
  | .jarr xs => String.intercalate "," (jsJoinElems xs)
  | .jobj _ => "[object Object]"

def jsJoinElems : List JVal → List String
  | [] => []
  | JVal.jnull :: rest => "" :: jsJoinElems rest
  | v :: rest => jsToString v :: jsJoinElems rest

end

/-- JS truthiness of a JSON value. -/
def JVal.isTruthy : JVal → Bool
  | .jnull => false
  | .jbool b => b
  | .jnum n => n != 0
  | .jstr s => !s.isEmpty
  | .jarr _ => true
  | .jobj _ => true

/-- Property access `v.k` on a JSON value; `none` models `undefined`. -/
def JVal.getField (v : JVal) (k : String) : Option JVal :=
  match v with
  | .jobj fs => (fs.find? (fun f => f.1 == k)).map Prod.snd
  | _ => none

def JVal.isArr : JVal → Bool
  | .jarr _ => true
  | _ => false

def JVal.arrElems : JVal → List JVal
  | .jarr xs => xs
  | _ => []

/-- Truthiness of a possibly-`undefined` JSON value. -/
def jTruthy : Option JVal → Bool
  | some v => v.isTruthy
  | none => false

/-- JS `a || b` on possibly-`undefined` JSON values. -/
def jOr (a b : Option JVal) : Option JVal :=
  if jTruthy a then a else b

/-- Template interpolation of a possibly-`undefined` JSON value. -/
def jShow : Option JVal → String
  | some v => jsToString v
  | none => "undefined"

/-- Truthiness of a possibly-`undefined` string (empty string is falsy). -/
def strTruthy : Option String → Bool
  | some s => !s.isEmpty
  | none => false

/-- JS chained `a || b || c || ...` over possibly-`undefined` strings,
returning `none` when every operand is falsy (so that a final `if (x)`
guard on the chained value is modeled by matching on `some`). -/
def firstTruthy : List (Option String) → Option String
  | [] => none
  | x :: rest => if strTruthy x then x else firstTruthy rest

/-- Drops `p` from the front of `cs` when it is literally there. -/
def stripPrefixChars : List Char → List Char → Option (List Char)
  | [], rest => some rest
  | a :: ps, c :: rest => if a = c then stripPrefixChars ps rest else none
  | _ :: _, [] => none

/-- Character-list test behind `String.startsWith` (kernel-reducible). -/
def startsWithStr (s p : String) : Bool :=
  (stripPrefixChars p.toList s.toList).isSome

/-- Character-list test behind `String.endsWith` (kernel-reducible). -/
def endsWithStr (s p : String) : Bool :=
  (stripPrefixChars p.toList.reverse s.toList.reverse).isSome

/-- JS `String.prototype.trim` (whitespace on both ends removed). -/
def trimStr (s : String) : String :=
  String.mk (((s.toList.dropWhile Char.isWhitespace).reverse.dropWhile
    Char.isWhitespace).reverse)

/-- JS `content.split('\n')`. -/
def splitLinesAux : List Char → List Char → List String
  | acc, [] => [String.mk acc.reverse]
  | acc, c :: rest =>
    if c = '\n' then String.mk acc.reverse :: splitLinesAux [] rest
    else splitLinesAux (c :: acc) rest

def splitLines (s : String) : List String :=
  splitLinesAux [] s.toList

/-- JS `s.replace(pat, rep)` with a string pattern: first occurrence only. -/
def replaceFirstAux (fuel : Nat) (pat rep : List Char) (acc cs : List Char) :
    List Char :=
  match fuel with
  | 0 => acc.reverse ++ cs
  | fuel' + 1 =>
    match cs with
    | [] => acc.reverse
    | c :: rest =>
      match stripPrefixChars pat cs with
      | some rest' => acc.reverse ++ rep ++ rest'
      | none => replaceFirstAux fuel' pat rep (c :: acc) rest

def replaceFirst (s pat rep : String) : String :=
  String.mk (replaceFirstAux (s.length + 1) pat.toList rep.toList [] s.toList)

/-- JS `s.replace(/pat/g, rep)`: all occurrences, left to right,
non-overlapping. -/
def replaceAllAux (fuel : Nat) (pat rep : List Char) (acc cs : List Char) :
    List Char :=
  match fuel with
  | 0 => acc.reverse ++ cs
  | fuel' + 1 =>
    match cs with
    | [] => acc.reverse
    | c :: rest =>
      match stripPrefixChars pat cs with
      | some rest' => replaceAllAux fuel' pat rep (rep.reverse ++ acc) rest'
      | none => replaceAllAux fuel' pat rep (c :: acc) rest

def replaceAll (s pat rep : String) : String :=
  String.mk (replaceAllAux (s.length + 1) pat.toList rep.toList [] s.toList)

/-- Safety classification levels (`SafetyLevel` in `aiSafety.ts`). -/
inductive SafetyLevel where
  | GREEN
  | YELLOW
  | RED
deriving DecidableEq, Repr, BEq

/-- Discriminator of `AIActionResponse.type`:
`'CHAT' | 'EXECUTE' | 'PROPOSAL'`. -/
inductive RespType where
  | CHAT
  | EXECUTE
  | PROPOSAL
deriving DecidableEq, Repr, BEq

/-- AI action response from the backend (`AIActionResponse` in
`aiSafety.ts`).  Optional fields are `Option`s; `tool_args` and
`tool_result` are opaque JSON payloads. -/
structure AIActionResponse where
  type : RespType
  content : String
  tool_name : Option String := none
  tool_args : Option JVal := none
  tool_result : Option JVal := none
  proposal_id : Option String := none
  proposal_reason : Option String := none
  safety_level : Option SafetyLevel := none
deriving Repr, BEq

/-- Check if a response requires user confirmation (`isProposal`);
`!!response.proposal_id` is JS truthiness, so an empty id string does not
count. -/
def isProposal (response : AIActionResponse) : Bool :=
  response.type == .PROPOSAL && strTruthy response.proposal_id

/-- Check if a proposal is in the Red Zone (`isRedZone`). -/
def isRedZone (response : AIActionResponse) : Bool :=
  response.safety_level == some .RED

/-- Check if a proposal is in the Yellow Zone (`isYellowZone`):
explicitly `YELLOW`, or a `PROPOSAL` with no safety level at all. -/
def isYellowZone (response : AIActionResponse) : Bool :=
  response.safety_level == some .YELLOW ||
    (response.type == .PROPOSAL && response.safety_level == none)

/-- Status of a rendered proposal card
(`'pending' | 'approved' | 'rejected'` in `AIChatPanel.tsx`). -/
inductive ProposalStatus where
  | pending
  | approved
  | rejected
deriving DecidableEq, Repr, BEq

/-- Message author (`'user' | 'assistant'`). -/
inductive Role where
  | user
  | assistant
deriving DecidableEq, Repr, BEq

/-- Transcript entry: either a `BaseMessage` or a `ProposalMessage`
(the `kind: 'proposal'` extension carrying the proposal and its status). -/
inductive Message where
  | plain (role : Role) (content : String) (timestamp : Int)
  | proposalCard (role : Role) (content : String) (timestamp : Int)
      (proposal : AIActionResponse) (status : ProposalStatus)
deriving Repr, BEq

/-- Test from `handleProposalDecision` and the ingestion effect:
`'kind' in msg && msg.kind === 'proposal' &&
msg.proposal.proposal_id === proposalId`. -/
def Message.isProposalWith (pid : String) : Message → Bool
  | .proposalCard _ _ _ p _ => p.proposal_id == some pid
  | .plain _ _ _ => false

/-- Badge text rendered on a proposal card:
`msg.proposal.safety_level || 'YELLOW'`. -/
def proposalBadge (p : AIActionResponse) : String :=
  match p.safety_level with
  | some .GREEN => "GREEN"
  | some .YELLOW => "YELLOW"
  | some .RED => "RED"
  | none => "YELLOW"

/-- Decision buttons of the proposal-actions row. -/
inductive ProposalButton where
  | reject
  | approve
deriving DecidableEq, Repr, BEq

/-- Buttons rendered in a proposal card's actions row, each with its
enabled state.  The reject button is always rendered; the approve button
is rendered only when `!isRedZone(msg.proposal)`; each button carries
`disabled={msg.status !== 'pending'}`. -/
def proposalActions (p : AIActionResponse) (status : ProposalStatus) :
    List (ProposalButton × Bool) :=
  (ProposalButton.reject, status == .pending) ::
    (if isRedZone p then []
     else [(ProposalButton.approve, status == .pending)])

/-- External effect records emitted by `handleProposalDecision`: either the
injected `onResolveProposal(proposalId, accepted, analysisContext)`
callback, or the `sendCommand('CHAT_CONFIRM' | 'CHAT_REJECT', ...)`
fallback.  `κ` is the (opaque) type of the ambient analysis context. -/
inductive ResolveCall (κ : Type) where
  | callback (pid : String) (accepted : Bool) (ctx : κ)
  | command (cmd : String) (pid : String) (ctx : κ)
deriving DecidableEq, Repr, BEq

/-- Optimistic status update applied by `handleProposalDecision`'s
`updateMessages` call: every message is mapped; a proposal card whose
`proposal.proposal_id` matches gets `status: accepted ? 'approved' :
'rejected'`, every other message is returned unchanged. -/
def applyDecision (pid : String) (accepted : Bool) (m : Message) : Message :=
  match m with
  | .proposalCard r c ts p _ =>
    if p.proposal_id == some pid then
      .proposalCard r c ts p (if accepted then .approved else .rejected)
    else m
  | .plain _ _ _ => m

/-- Assistant message appended when the resolution callback fails. -/
def resolveFailureMessage (now : Int) : Message :=
  .plain .assistant "Failed to resolve the proposal. Please try again." now

/-- The `handleProposalDecision(proposalId, accepted)` handler of
`AIChatPanel.tsx`.  It first applies the optimistic status update to every
matching card, then invokes the external resolution callback when one is
injected (otherwise the `CHAT_CONFIRM`/`CHAT_REJECT` command fallback);
when that invocation fails (throws or rejects), it appends one assistant
message and leaves the optimistic statuses in place.  The returned pair is
the new message list and the list of external calls made. -/
def handleProposalDecision {κ : Type} (msgs : List Message) (pid : String)
    (accepted : Bool) (hasCallback : Bool) (ctx : κ)
    (resolutionFails : Bool) (now : Int) :
    List Message × List (ResolveCall κ) :=
  let updated := msgs.map (applyDecision pid accepted)
  let call : ResolveCall κ :=
    if hasCallback then .callback pid accepted ctx
    else .command (if accepted then "CHAT_CONFIRM" else "CHAT_REJECT") pid ctx
  if resolutionFails then
    (updated ++ [resolveFailureMessage now], [call])
  else
    (updated, [call])

/-- Status of the first card matching `pid` in a transcript. -/
def statusOf (pid : String) (msgs : List Message) : Option ProposalStatus :=
  match msgs.find? (Message.isProposalWith pid) with
  | some (.proposalCard _ _ _ _ st) => some st
  | _ => none

/-- The `activeProposal` ingestion effect of `AIChatPanel.tsx`.  Nothing
happens when there is no active proposal or its `proposal_id` is falsy;
nothing happens when a card with the same id is already in the transcript
(duplicate delivery) or when the `lastProposalIdRef` cell already holds the
id; otherwise one pending proposal card is appended and the ref updated.
The returned pair is the new message list and the value of
`lastProposalIdRef`. -/
def ingestProposal (msgs : List Message) (lastPid : Option String)
    (activeProposal : Option AIActionResponse) (now : Int) :
    List Message × Option String :=
  match activeProposal with
  | none => (msgs, lastPid)
  | some p =>
    match p.proposal_id with
    | none => (msgs, lastPid)
    | some pid =>
      if pid.isEmpty then (msgs, lastPid)
      else if msgs.any (Message.isProposalWith pid) then (msgs, lastPid)
      else if lastPid == some pid then (msgs, lastPid)
      else
        (msgs ++ [.proposalCard .assistant p.content now p .pending], some pid)

/-- Number of proposal cards with id `pid` in a transcript. -/
def pidCount (pid : String) (msgs : List Message) : Nat :=
  (msgs.filter (Message.isProposalWith pid)).length

/-- Reconciler state of the panel: the local working copy of the transcript
plus the one-shot `isSyncingFromParent` marker. -/
structure PanelState where
  messages : List Message
  syncFlag : Bool
deriving Repr, BEq

/-- Inbound sync effect (`useEffect` on `chatHistory`): when the external
history is present and differs by value (`JSON.stringify` comparison,
modeled as `==`) from the local messages, overwrite the local copy and set
the one-shot marker. -/
def inboundSync (st : PanelState) (chatHistory : Option (List Message)) :
    PanelState :=
  match chatHistory with
  | none => st
  | some h =>
    if (h == st.messages) then st
    else { messages := h, syncFlag := true }

/-- Outbound notify effect (`useEffect` on `messages`): a run consumes the
one-shot marker without notifying; otherwise it notifies the parent once
exactly when a callback is installed, the empty-on-both-sides early return
does not fire, and the local copy differs by value from the external
history.  Returns the new state and the number of `onChatUpdate` calls
made by this run. -/
def notifyEffect (st : PanelState) (chatHistory : Option (List Message))
    (hasCallback : Bool) : PanelState × Nat :=
  if st.syncFlag then ({ st with syncFlag := false }, 0)
  else if !hasCallback then (st, 0)
  else if st.messages.isEmpty &&
      (chatHistory == none || chatHistory == some []) then (st, 0)
  else if (st.messages == chatHistory.getD []) then (st, 0)
  else (st, 1)

/-- A local mutation of the transcript (`setMessages`/`updateMessages`
from user input, responses, proposal handling): rewrites `messages`,
leaves the one-shot marker untouched. -/
def localMutation (st : PanelState) (f : List Message → List Message) :
    PanelState :=
  { st with messages := f st.messages }

/-- The `formatInlineValue` helper of `AIChatPanel.tsx` (with `t`
modeled as identity on the English key). -/
def formatInlineValue (value : JVal) : String :=
  match value with
  | .jnull => "N/A"
  | .jstr s => s
  | .jnum n => toString n
  | .jbool b => if b then "true" else "false"
  | .jarr xs =>
    if xs.isEmpty then "0 items"
    else if xs.all (fun v => match v with
        | .jnull => true
        | .jstr _ => true
        | .jnum _ => true
        | .jbool _ => true
        | _ => false) then
      let preview := String.intercalate ", " ((xs.take 3).map jsToString)
      if xs.length > 3 then preview ++ ", +" ++ toString (xs.length - 3)
      else preview
    else toString xs.length ++ " items"
  | .jobj fs =>
    if fs.isEmpty then "N/A"
    else
      let preview := String.intercalate ", " ((fs.take 3).map Prod.fst)
      if fs.length > 3 then "\x7b" ++ preview ++ ", ...\x7d"
      else "\x7b" ++ preview ++ "\x7d"

/-- The `formatObjectInline` helper: first four entries as
`key: value` separated by semicolons. -/
def formatObjectInline (fs : List (String × JVal)) : String :=
  if fs.isEmpty then "N/A"
  else
    String.intercalate "; "
      ((fs.take 4).map (fun kv => kv.1 ++ ": " ++ formatInlineValue kv.2))

/-- The `formatGenericToolResult` helper. -/
def formatGenericToolResult (result : JVal) : String :=
  match result with
  | .jarr xs =>
    let items := xs.map (fun item =>
      match item with
      | .jobj fs => formatObjectInline fs
      | other => formatInlineValue other)
    "**Result** (" ++ toString xs.length ++ " items):\n" ++
      String.intercalate "\n" (items.map (fun item => "- " ++ item))
  | .jobj fs =>
    if fs.isEmpty then "**Result**: N/A"
    else
      "**Result**:\n" ++ String.intercalate "\n"
        (fs.map (fun kv => "- " ++ kv.1 ++ ": " ++ formatInlineValue kv.2))
  | other => "**Result**: " ++ formatInlineValue other

/-- JS `Number.prototype.toExponential(2)` for the integer-valued numbers
of this JSON model (used only on displayed p-values). -/
def toExponential2 (n : Int) : String :=
  let sign := if n < 0 then "-" else ""
  let m := n.natAbs
  if m = 0 then "0.00e+0"
  else
    let e := (toString m).length - 1
    let qe :=
      if e ≤ 2 then (m * 10 ^ (2 - e), e)
      else
        let p := 10 ^ (e - 2)
        let q := (m + p / 2) / p
        if q ≥ 1000 then (q / 10, e + 1) else (q, e)
    let qs := toString qe.1
    sign ++ qs.take 1 ++ "." ++ qs.drop 1 ++ "e+" ++ toString qe.2

/-- One pathway line of the `list_pathways` result display:
`\n• ${p.id}: ${p.name}` per element. -/
def listPathwaysLines (xs : List JVal) : String :=
  String.join (xs.map (fun p =>
    "\n• " ++ jShow (p.getField "id") ++ ": " ++ jShow (p.getField "name")))

/-- The `render_pathway` result display (caller has checked that
`result.pathway` is truthy). -/
def renderPathwayDetails (result : JVal) : String :=
  let pathway := (result.getField "pathway").getD .jnull
  let stats := (jOr (result.getField "statistics")
    (some (.jobj []))).getD (.jobj [])
  "\n\n**Pathway**: " ++
    jShow (jOr (pathway.getField "title") (pathway.getField "id")) ++
  "\n**Total Genes**: " ++
    jShow (jOr (stats.getField "total_nodes") (some (.jnum 0))) ++
  "\n**Upregulated**: " ++
    jShow (jOr (stats.getField "upregulated") (some (.jnum 0))) ++
  " | **Downregulated**: " ++
    jShow (jOr (stats.getField "downregulated") (some (.jnum 0)))

/-- One line of the top-ten enrichment terms display. -/
def enrichmentTermLine (idx : Nat) (term : JVal) : String :=
  let pval := jOr (term.getField "adjusted_p_value") (term.getField "p_value")
  toString (idx + 1) ++ ". **" ++ jShow (term.getField "term") ++ "**\n" ++
  "   - P-value: " ++
    (match pval with
     | some (.jnum n) => toExponential2 n
     | _ => "NaN") ++ "\n" ++
  "   - Genes: " ++ jShow (term.getField "overlap") ++ "\n"

/-- The `run_enrichment` result display. -/
def runEnrichmentDetails (result : JVal) : String :=
  if jTruthy (result.getField "error") then
    "\n\n**Error**: " ++ jShow (result.getField "error")
  else
    let base := "\n\n**Enrichment Results**:" ++
      "\n• Input genes: " ++ jShow (result.getField "input_genes") ++
      "\n• Gene sets: " ++ jShow (result.getField "gene_sets") ++
      "\n• Enriched terms: " ++ jShow (result.getField "total_terms") ++ "\n"
    match result.getField "enriched_terms" with
    | some (.jarr terms) =>
      if terms.isEmpty then base
      else
        base ++ "\n**Top 10 significant pathways**:\n" ++
          String.join ((terms.take 10).enum.map
            (fun te => enrichmentTermLine te.1 te.2))
    | _ => base

/-- Inbound payload observed through `lastResponse` in `AIChatPanel.tsx`
(the hook types it `any`; the fields below are the ones the panel reads).
`__receivedAt` is the receipt timestamp stamped by the transport. -/
structure Resp where
  cmd : Option String := none
  type : Option String := none
  content : String := ""
  tool_name : Option String := none
  tool_result : Option JVal := none
  result : Option JVal := none
  narrative : Option String := none
  summary : Option String := none
  message : Option String := none
  __receivedAt : Option Int := none
deriving Repr

/-- Response content built by the `CHAT`/`EXECUTE` branch: the response
text, plus tool-execution details when `type === 'EXECUTE'` and a truthy
`tool_name` and `tool_result` are present, specialised for
`list_pathways`, `render_pathway` and `run_enrichment`. -/
def buildChatContent (r : Resp) : String :=
  let base := r.content
  if r.type == some "EXECUTE" && strTruthy r.tool_name then
    let base := base ++ "\n\n**🔧 Tool executed**: " ++ r.tool_name.getD ""
    if jTruthy r.tool_result then
      let result := r.tool_result.getD .jnull
      if r.tool_name == some "list_pathways" && result.isArr then
        base ++ "\n\n**Available pathways list** (" ++
          toString result.arrElems.length ++ " items):" ++
          listPathwaysLines result.arrElems
      else if r.tool_name == some "render_pathway" &&
          jTruthy (result.getField "pathway") then
        base ++ renderPathwayDetails result
      else if r.tool_name == some "run_enrichment" then
        base ++ runEnrichmentDetails result
      else
        base ++ "\n\n" ++ formatGenericToolResult result
    else base
  else base

/-- Narrative picked by the `AGENT_TASK` branch:
`lastResponse.result?.narrative || lastResponse.narrative ||
lastResponse.summary || lastResponse.content || lastResponse.message`. -/
def agentNarrative (r : Resp) : Option String :=
  let resultNarrative : Option String :=
    match r.result with
    | some v =>
      match v.getField "narrative" with
      | some (.jstr s) => some s
      | _ => none
    | none => none
  firstTruthy [resultNarrative, r.narrative, r.summary, some r.content,
    r.message]

/-- Content picked by the structured-command branch:
`lastResponse.summary || lastResponse.content || lastResponse.message`. -/
def structuredContent (r : Resp) : Option String :=
  firstTruthy [r.summary, some r.content, r.message]

/-- The structured prompt commands whose responses are displayed. -/
def structuredCmds : List String :=
  ["SUMMARIZE_ENRICHMENT", "SUMMARIZE_DE", "PARSE_FILTER",
   "GENERATE_HYPOTHESIS", "DISCOVER_PATTERNS", "DESCRIBE_VISUALIZATION"]

/-- AI activity indicator (`aiActivity` state). -/
structure Activity where
  taskName : String
  currentStep : Option String := none
deriving Repr, BEq

/-- State touched by the `lastResponse` effect. -/
structure ChatState where
  messages : List Message
  isLoading : Bool
  aiActivity : Option Activity
deriving Repr, BEq

/-- Staleness guard: `typeof lastResponse.__receivedAt === 'number' &&
lastResponse.__receivedAt < mountedAtRef.current`. -/
def isStaleResp (r : Resp) (mountedAt : Int) : Bool :=
  match r.__receivedAt with
  | some ts => ts < mountedAt
  | none => false

/-- The `lastResponse` effect of `AIChatPanel.tsx`: ignore absent
responses; drop responses received before the component mounted; append
one assistant message for `CHAT`/`EXECUTE` chat responses (clearing the
loading flag and activity), for `AGENT_TASK` narratives and for structured
prompt responses (clearing the loading flag); ignore everything else. -/
def processLastResponse (st : ChatState) (lastResponse : Option Resp)
    (mountedAt now : Int) : ChatState :=
  match lastResponse with
  | none => st
  | some r =>
    if isStaleResp r mountedAt then st
    else if r.cmd == some "CHAT" &&
        (r.type == some "CHAT" || r.type == some "EXECUTE") then
      { st with
        messages := st.messages ++ [.plain .assistant (buildChatContent r) now],
        isLoading := false,
        aiActivity := none }
    else if r.cmd == some "AGENT_TASK" then
      match agentNarrative r with
      | some n =>
        { st with
          messages := st.messages ++ [.plain .assistant n now],
          isLoading := false }
      | none => { st with isLoading := false }
    else if (match r.cmd with
             | some c => structuredCmds.contains c
             | none => false) then
      match structuredContent r with
      | some c =>
        { st with
          messages := st.messages ++ [.plain .assistant c now],
          isLoading := false }
      | none => { st with isLoading := false }
    else st

/-- Characters matched by the JS regex dot (no line terminators). -/
def isDotChar (c : Char) : Bool :=
  c ≠ '\n' && c ≠ '\r' && c ≠ (Char.ofNat 0x2028) && c ≠ (Char.ofNat 0x2029)

/-- Lazy `.+?\]\]`: consume at least one dot character, stopping at the
earliest following `]]`.  Returns the consumed id and the remainder after
the closing brackets. -/
def lazyTagEnd (fuel : Nat) (acc cs : List Char) :
    Option (String × List Char) :=
  match fuel with
  | 0 => none
  | fuel' + 1 =>
    match cs with
    | [] => none
    | c :: rest =>
      if !isDotChar c then none
      else
        match rest with
        | ']' :: ']' :: rest' => some (String.mk (c :: acc).reverse, rest')
        | _ => lazyTagEnd fuel' (c :: acc) rest

/-- Attempts to match `\[\[(GENE|PATHWAY|COMPOUND):.+?\]\]` at the head of
`cs`, returning kind, id and the remainder. -/
def matchTagAt (cs : List Char) : Option (String × String × List Char) :=
  match stripPrefixChars ['[', '['] cs with
  | none => none
  | some afterBrackets =>
    let tryKind := fun (k : String) =>
      match stripPrefixChars (k.toList ++ [':']) afterBrackets with
      | none => none
      | some afterKind =>
        match lazyTagEnd (afterKind.length + 1) [] afterKind with
        | none => none
        | some (id, rest) => some (k, id, rest)
    match tryKind "GENE" with
    | some r => some r
    | none =>
      match tryKind "PATHWAY" with
      | some r => some r
      | none => tryKind "COMPOUND"

/-- Parts produced by `text.split(/(\[\[(?:GENE|PATHWAY|COMPOUND):.+?\]\])/g)`
with the capturing delimiter kept: plain text runs alternating with
matched entity tags. -/
inductive TagPart where
  | textPart (s : String)
  | tagPart (tagType : String) (id : String)
deriving DecidableEq, Repr, BEq

def splitTagsAux (fuel : Nat) (acc cs : List Char) : List TagPart :=
  match fuel with
  | 0 => [.textPart (String.mk acc.reverse)]
  | fuel' + 1 =>
    match cs with
    | [] => [.textPart (String.mk acc.reverse)]
    | c :: rest =>
      match matchTagAt (c :: rest) with
      | some (k, id, rest') =>
        .textPart (String.mk acc.reverse) :: .tagPart k id ::
          splitTagsAux fuel' [] rest'
      | none => splitTagsAux fuel' (c :: acc) rest

def splitTags (s : String) : List TagPart :=
  splitTagsAux (s.length + 1) [] s.toList

/-- Lazy `\*\*.+?\*\*` content matcher, analogous to `lazyTagEnd`. -/
def lazyBoldEnd (fuel : Nat) (acc cs : List Char) :
    Option (String × List Char) :=
  match fuel with
  | 0 => none
  | fuel' + 1 =>
    match cs with
    | [] => none
    | c :: rest =>
      if !isDotChar c then none
      else
        match rest with
        | '*' :: '*' :: rest' => some (String.mk (c :: acc).reverse, rest')
        | _ => lazyBoldEnd fuel' (c :: acc) rest

def matchBoldAt (cs : List Char) : Option (String × List Char) :=
  match stripPrefixChars ['*', '*'] cs with
  | none => none
  | some afterOpen => lazyBoldEnd (afterOpen.length + 1) [] afterOpen

/-- Parts produced by `part.split(/(\*\*.+?\*\*)/g)`. -/
inductive BoldPart where
  | btext (s : String)
  | bbold (inner : String)
deriving DecidableEq, Repr, BEq

def splitBoldAux (fuel : Nat) (acc cs : List Char) : List BoldPart :=
  match fuel with
  | 0 => [.btext (String.mk acc.reverse)]
  | fuel' + 1 =>
    match cs with
    | [] => [.btext (String.mk acc.reverse)]
    | c :: rest =>
      match matchBoldAt (c :: rest) with
      | some (inner, rest') =>
        .btext (String.mk acc.reverse) :: .bbold inner ::
          splitBoldAux fuel' [] rest'
      | none => splitBoldAux fuel' (c :: acc) rest

def splitBold (s : String) : List BoldPart :=
  splitBoldAux (s.length + 1) [] s.toList

/-- Inline nodes emitted by `parseTextWithTags`: plain spans, clickable
entity spans (labeled by the entity id, with an `onClick` that invokes
`onEntityClick(type, id)`), and `<strong>` spans. -/
inductive Inline where
  | textSpan (s : String)
  | entitySpan (tagType : String) (id : String)
  | boldSpan (s : String)
deriving DecidableEq, Repr, BEq

/-- The `parseTextWithTags` helper of `evidenceRenderer.tsx` (flattened;
React keys are not modeled). -/
def parseTextWithTags (text : String) : List Inline :=
  (splitTags text).flatMap (fun part =>
    match part with
    | .tagPart k id => [Inline.entitySpan k id]
    | .textPart s =>
      (splitBold s).map (fun bp =>
        match bp with
        | .bbold inner => Inline.boldSpan inner
        | .btext t_ => Inline.textSpan t_))

/-- Visible label of an inline span (an entity span renders `{id}`). -/
def spanLabel : Inline → String
  | .textSpan s => s
  | .entitySpan _ id => id
  | .boldSpan s => s

/-- Calls performed by activating an inline span: an entity span's
`onClick` invokes `onEntityClick(type, id)` once; other spans have no
click handler. -/
def activateInline : Inline → List (String × String)
  | .entitySpan k id => [(k, id)]
  | _ => []

/-- Block-level nodes emitted by `renderEvidenceContent`. -/
inductive Block where
  | heading3 (children : List Inline)
  | heading4 (children : List Inline)
  | emphLine (children : List Inline)
  | lineBreak
  | paragraph (children : List Inline)
  | bulletList (items : List (List Inline))
  | orderedList (items : List (List Inline))
deriving DecidableEq, Repr, BEq

inductive ListKind where
  | ul
  | ol
deriving DecidableEq, Repr, BEq

/-- Accumulator of the line loop in `renderEvidenceContent`. -/
structure RenderState where
  elements : List Block
  currentList : List String
  listType : Option ListKind
deriving Repr, BEq

/-- The `flushList` helper: when items have accumulated under a list kind,
emit the list block and reset the accumulator. -/
def flushList (st : RenderState) : RenderState :=
  if !st.currentList.isEmpty then
    match st.listType with
    | some lk =>
      let items := st.currentList.map parseTextWithTags
      let block := match lk with
        | .ul => Block.bulletList items
        | .ol => Block.orderedList items
      { elements := st.elements ++ [block], currentList := [],
        listType := none }
    | none => st
  else st

/-- The regex `^[-*]\s+(.+)` applied to a trimmed line. -/
def bulletMatch (s : String) : Option String :=
  match s.toList with
  | c :: rest =>
    if c == '-' || c == '*' then
      let body := rest.dropWhile Char.isWhitespace
      if (rest.takeWhile Char.isWhitespace).length ≥ 1 && !body.isEmpty
      then some (String.mk body)
      else none
    else none
  | [] => none

/-- The regex `^\d+[.)]\s+(.+)` applied to a trimmed line. -/
def numMatch (s : String) : Option String :=
  let cs := s.toList
  let digits := cs.takeWhile Char.isDigit
  let rest := cs.dropWhile Char.isDigit
  if digits.isEmpty then none
  else
    match rest with
    | c :: rest' =>
      if c == '.' || c == ')' then
        let body := rest'.dropWhile Char.isWhitespace
        if (rest'.takeWhile Char.isWhitespace).length ≥ 1 && !body.isEmpty
        then some (String.mk body)
        else none
      else none
    | [] => none

/-- One iteration of the `lines.forEach` loop of `renderEvidenceContent`. -/
def renderLine (st : RenderState) (line : String) : RenderState :=
  let trimmed := trimStr line
  match bulletMatch trimmed with
  | some item =>
    let st := if st.listType ≠ some .ul then flushList st else st
    { st with listType := some .ul, currentList := st.currentList ++ [item] }
  | none =>
    match numMatch trimmed with
    | some item =>
      let st := if st.listType ≠ some .ol then flushList st else st
      { st with listType := some .ol, currentList := st.currentList ++ [item] }
    | none =>
      let st := flushList st
      if startsWithStr trimmed "### " then
        { st with elements := st.elements ++
            [.heading3 (parseTextWithTags (replaceFirst trimmed "### " ""))] }
      else if startsWithStr trimmed "**" && endsWithStr trimmed "**" then
        { st with elements := st.elements ++
            [.heading4 (parseTextWithTags (replaceAll trimmed "**" ""))] }
      else if startsWithStr trimmed "*" && endsWithStr trimmed "*" then
        { st with elements := st.elements ++
            [.emphLine (parseTextWithTags (replaceAll trimmed "*" ""))] }
      else if trimmed.isEmpty then
        { st with elements := st.elements ++ [.lineBreak] }
      else
        { st with elements := st.elements ++
            [.paragraph (parseTextWithTags line)] }

/-- The `renderEvidenceContent` entry point of `evidenceRenderer.tsx`. -/
def renderEvidenceContent (content : String) : List Block :=
  (flushList ((splitLines content).foldl renderLine
    ⟨[], [], none⟩)).elements

/-- All entity spans of an inline run, as `(type, id)` pairs. -/
def inlineEntities (xs : List Inline) : List (String × String) :=
  xs.flatMap activateInline

/-- All entity spans of a rendered transcript, in render order. -/
def blockEntities : Block → List (String × String)
  | .heading3 xs => inlineEntities xs
  | .heading4 xs => inlineEntities xs
  | .emphLine xs => inlineEntities xs
  | .lineBreak => []
  | .paragraph xs => inlineEntities xs
  | .bulletList items => items.flatMap inlineEntities
  | .orderedList items => items.flatMap inlineEntities

def renderedEntities (bs : List Block) : List (String × String) :=
  bs.flatMap blockEntities

/-- Modelled from the spec: the backend Safety Classifier and action
emitter are not part of the frontend sources (the repository ships only
their consumer, `AIChatPanel.tsx`, and the `aiSafety.ts` declarations).
Action descriptor per spec §4.1: read-only/local-view actions, mutations
of shared analysis state or non-trivial computation, irreversible or
externally-exporting actions, and a whitelist of recognized tool names. -/
structure ActionDescriptor where
  toolName : String
  mutatesSharedState : Bool
  irreversible : Bool
  exportsExternally : Bool
  whitelisted : Bool
deriving DecidableEq, Repr, BEq

/-- Modelled from the spec: `classify(action) -> SafetyTier` (§4.1).
`RED` when the action is irreversible, exports data externally, or falls
outside the recognized whitelist; otherwise `YELLOW` when it mutates
shared analysis state or triggers non-trivial computation; otherwise
`GREEN` (read-only / strictly local-view). -/
def classify (a : ActionDescriptor) : SafetyLevel :=
  if a.irreversible || a.exportsExternally || !a.whitelisted then .RED
  else if a.mutatesSharedState then .YELLOW
  else .GREEN

/-- Modelled from the spec: the backend turns a classified action into an
`ActionResponse` (§2 control flow, §3 invariant): a `GREEN` action is
auto-executed and reported with `kind = AUTO_EXECUTED` (`type: 'EXECUTE'`),
any other tier is surfaced as a proposal with `kind = PROPOSED`
(`type: 'PROPOSAL'`), its tier and a fresh proposal id. -/
def emitActionResponse (a : ActionDescriptor) (content : String)
    (toolArgs : Option JVal) (toolResult : Option JVal)
    (pid reason : String) : AIActionResponse :=
  match classify a with
  | .GREEN =>
    { type := .EXECUTE, content := content, tool_name := some a.toolName,
      tool_args := toolArgs, tool_result := toolResult,
      safety_level := some .GREEN }
  | tier =>
    { type := .PROPOSAL, content := content, tool_name := some a.toolName,
      tool_args := toolArgs, proposal_id := some pid,
      proposal_reason := some reason, safety_level := some tier }

/-- Sample `YELLOW`-by-default proposal (a `PROPOSAL` whose backend left
`safety_level` unset). -/
def sampleYellowResp : AIActionResponse :=
  { type := .PROPOSAL, content := "Run enrichment?",
    tool_name := some "run_enrichment", proposal_id := some "p2" }

/-- Sample `RED` proposal. -/
def sampleRedResp : AIActionResponse :=
  { type := .PROPOSAL, content := "Delete dataset X",
    tool_name := some "delete_dataset", proposal_id := some "p1",
    proposal_reason := some "irreversible action",
    safety_level := some .RED }

def sampleYellowCard (st : ProposalStatus) : Message :=
  .proposalCard .assistant "Run enrichment?" 0 sampleYellowResp st

def sampleRedCard : Message :=
  .proposalCard .assistant "Delete dataset X" 0 sampleRedResp .pending

/-- A message that is no proposal card never matches a proposal id, and the
failure message in particular never does. -/
theorem isProposalWith_plain (pid : String) (r : Role) (c : String)
    (ts : Int) : (Message.plain r c ts).isProposalWith pid = false := rfl

/-- `applyDecision` leaves a non-matching message unchanged. -/
theorem applyDecision_not_match {pid : String} {accepted : Bool}
    {m : Message} (h : m.isProposalWith pid = false) :
    applyDecision pid accepted m = m := by
  cases m with
  | plain r c ts => rfl
  | proposalCard r c ts p st =>
    simp only [Message.isProposalWith] at h
    simp [applyDecision, h]

/-- `applyDecision` does not change which proposal id a message carries. -/
theorem isProposalWith_applyDecision (pid : String) (accepted : Bool)
    (m : Message) :
    (applyDecision pid accepted m).isProposalWith pid
      = m.isProposalWith pid := by
  cases m with
  | plain r c ts => rfl
  | proposalCard r c ts p st =>
    by_cases h : (p.proposal_id == some pid) = true
    · simp [applyDecision, Message.isProposalWith, h]
    · simp only [Bool.not_eq_true] at h
      simp [applyDecision, Message.isProposalWith, h]

/-- When no message matches, the optimistic update is the identity. -/
theorem map_applyDecision_eq_self {pid : String} {accepted : Bool}
    {msgs : List Message}
    (h : msgs.any (Message.isProposalWith pid) = false) :
    msgs.map (applyDecision pid accepted) = msgs := by
  induction msgs with
  | nil => rfl
  | cons m rest ih =>
    simp only [List.any_cons, Bool.or_eq_false_iff] at h
    simp [applyDecision_not_match h.1, ih h.2]

/-- When some message matches, the optimistic update leaves the first
matching card with the decided status. -/
theorem statusOf_map_applyDecision {pid : String} {accepted : Bool}
    {msgs : List Message}
    (h : msgs.any (Message.isProposalWith pid) = true) :
    statusOf pid (msgs.map (applyDecision pid accepted))
      = some (if accepted then .approved else .rejected) := by
  induction msgs with
  | nil => simp at h
  | cons m rest ih =>
    by_cases hm : m.isProposalWith pid = true
    · cases m with
      | plain r c ts => simp [Message.isProposalWith] at hm
      | proposalCard r c ts p st =>
        simp only [Message.isProposalWith] at hm
        simp [statusOf, applyDecision, hm, Message.isProposalWith]
    · simp only [Bool.not_eq_true] at hm
      simp only [List.any_cons, hm, Bool.false_or] at h
      have hm' := isProposalWith_applyDecision pid accepted m
      rw [hm] at hm'
      simp only [List.map_cons, statusOf, List.find?_cons, hm']
      exact ih h

/-- `statusOf` looks through a trailing non-matching message. -/
theorem statusOf_append_plain (pid : String) (msgs : List Message)
    (r : Role) (c : String) (ts : Int) :
    statusOf pid (msgs ++ [Message.plain r c ts]) = statusOf pid msgs := by
  induction msgs with
  | nil => simp [statusOf, Message.isProposalWith]
  | cons m rest ih =>
    by_cases hm : m.isProposalWith pid = true
    · cases m with
      | plain r' c' ts' => simp [Message.isProposalWith] at hm
      | proposalCard r' c' ts' p st =>
        simp only [Message.isProposalWith] at hm
        simp [statusOf, List.find?_cons, Message.isProposalWith, hm]
    · simp only [Bool.not_eq_true] at hm
      simp only [List.cons_append, statusOf, List.find?_cons, hm] at ih ⊢
      exact ih

/-- `pidCount` over an appended card. -/
theorem pidCount_append_card (q : String) (msgs : List Message)
    (m : Message) :
    pidCount q (msgs ++ [m])
      = pidCount q msgs + (if m.isProposalWith q then 1 else 0) := by
  simp only [pidCount, List.filter_append, List.length_append]
  by_cases hm : m.isProposalWith q = true
  · simp [hm]
  · simp only [Bool.not_eq_true] at hm
    simp [hm]

/-- A transcript with no card for `q` has `pidCount q = 0`. -/
theorem pidCount_eq_zero_of_any_false {q : String} {msgs : List Message}
    (h : msgs.any (Message.isProposalWith q) = false) :
    pidCount q msgs = 0 := by
  induction msgs with
  | nil => rfl
  | cons m rest ih =>
    simp only [List.any_cons, Bool.or_eq_false_iff] at h
    simp only [pidCount, List.filter_cons, h.1]
    exact ih h.2

/-- C1 counterexample: on a pending `RED` proposal card, invoking
`handleProposalDecision` with `accepted = true` does change the card's
status to approved (and performs the resolution call) — the handler itself
has no red-zone guard and raises no error condition, contradicting the
claim that such an invocation leaves the status unapproved. -/
theorem red_approval_flips_status_to_approved :
    isRedZone sampleRedResp = true ∧
    statusOf "p1" [sampleRedCard] = some .pending ∧
    statusOf "p1"
      (handleProposalDecision (κ := Unit) [sampleRedCard] "p1" true true ()
        false 0).1 = some .approved ∧
    (handleProposalDecision (κ := Unit) [sampleRedCard] "p1" true true ()
      false 0).2 = [.callback "p1" true ()] := by
  decide

/-- C1 (amended): the red-zone guard lives at the calling surface, not in
`handleProposalDecision`.  For a `RED` proposal the rendered card offers
only the reject button (the approve control is structurally absent for any
status), so the UI cannot invoke the resolve operation with
`accepted = true` on it; the handler itself, called directly, does apply
the approval. -/
theorem red_proposal_approve_control_absent (p : AIActionResponse)
    (st : ProposalStatus) (hred : isRedZone p = true) :
    proposalActions p st = [(ProposalButton.reject, st == .pending)] ∧
    ∀ enabled : Bool,
      (ProposalButton.approve, enabled) ∉ proposalActions p st := by
  constructor
  · simp [proposalActions, hred]
  · intro enabled hmem
    simp [proposalActions, hred] at hmem

/-- C1 witness. -/
theorem red_proposal_approve_control_absent_witness :
    proposalActions sampleRedResp .pending
        = [(ProposalButton.reject, true)] ∧
    ∀ enabled : Bool, (ProposalButton.approve, enabled) ∉
      proposalActions sampleRedResp .pending :=
  red_proposal_approve_control_absent sampleRedResp .pending rfl

/-- C2: a `PROPOSAL` response with no `safety_level` is classified yellow,
never red; its card renders the `YELLOW` badge and, while pending, the
full approve/reject decision gate. -/
theorem missing_safety_defaults_to_yellow (p : AIActionResponse)
    (hk : p.type = .PROPOSAL) (hs : p.safety_level = none) :
    isYellowZone p = true ∧ isRedZone p = false ∧
    proposalBadge p = "YELLOW" ∧
    proposalActions p .pending =
      [(ProposalButton.reject, true), (ProposalButton.approve, true)] := by
  refine ⟨?_, ?_, ?_, ?_⟩
  · simp only [isYellowZone, hk, hs]
    decide
  · simp [isRedZone, hs]
  · simp [proposalBadge, hs]
  · simp only [proposalActions, isRedZone, hs]
    decide

/-- C2 witness. -/
theorem missing_safety_defaults_to_yellow_witness :
    isYellowZone sampleYellowResp = true ∧
    isRedZone sampleYellowResp = false ∧
    proposalBadge sampleYellowResp = "YELLOW" ∧
    proposalActions sampleYellowResp .pending =
      [(ProposalButton.reject, true), (ProposalButton.approve, true)] :=
  missing_safety_defaults_to_yellow sampleYellowResp rfl rfl

/-- C3: ingesting an active proposal whose id already has a card in the
transcript leaves the message list (and the dedup ref) unchanged, and the
ingestion effect preserves the at-most-one-card-per-proposal-id invariant
for every id. -/
theorem proposal_ingestion_idempotent (msgs : List Message)
    (lastPid : Option String) (p : AIActionResponse) (pid : String)
    (now : Int) (hpid : p.proposal_id = some pid) :
    (msgs.any (Message.isProposalWith pid) = true →
      ingestProposal msgs lastPid (some p) now = (msgs, lastPid)) ∧
    (∀ q : String, pidCount q msgs ≤ 1 →
      pidCount q (ingestProposal msgs lastPid (some p) now).1 ≤ 1) := by
  constructor
  · intro hdup
    simp [ingestProposal, hpid, hdup]
  · intro q hq
    by_cases hempty : pid.isEmpty = true
    · simp [ingestProposal, hpid, hempty]
      exact hq
    · simp only [Bool.not_eq_true] at hempty
      by_cases hdup : msgs.any (Message.isProposalWith pid) = true
      · simp [ingestProposal, hpid, hempty, hdup]
        exact hq
      · simp only [Bool.not_eq_true] at hdup
        by_cases href : (lastPid == some pid) = true
        · simp [ingestProposal, hpid, hempty, hdup, href]
          exact hq
        · simp only [Bool.not_eq_true] at href
          simp only [ingestProposal, hpid, hempty, hdup, href, Bool.false_eq_true,
            if_false, if_true]
          rw [pidCount_append_card]
          by_cases hqp : (q = pid)
          · subst hqp
            have h0 := pidCount_eq_zero_of_any_false hdup
            simp [Message.isProposalWith, hpid, h0]
          · have : (Message.proposalCard .assistant p.content now p
                .pending).isProposalWith q = false := by
              simp [Message.isProposalWith, hpid]
              exact fun hcontra => hqp hcontra.symm
            simp [this]
            exact hq

/-- C3 witness. -/
theorem proposal_ingestion_idempotent_witness :
    ([sampleYellowCard .pending].any (Message.isProposalWith "p2") = true →
      ingestProposal [sampleYellowCard .pending] none (some sampleYellowResp)
        7 = ([sampleYellowCard .pending], none)) ∧
    (∀ q : String, pidCount q [sampleYellowCard .pending] ≤ 1 →
      pidCount q (ingestProposal [sampleYellowCard .pending] none
        (some sampleYellowResp) 7).1 ≤ 1) :=
  proposal_ingestion_idempotent [sampleYellowCard .pending] none
    sampleYellowResp "p2" 7 rfl

/-- C4 counterexample: after a proposal has been resolved (approved), a
second `handleProposalDecision` call on the same id is not a no-op — it
re-maps the card's status (here approved to rejected) and performs the
external resolution call a second time. -/
theorem resolve_after_resolution_not_noop :
    statusOf "p2"
      (handleProposalDecision (κ := Unit) [sampleYellowCard .pending] "p2"
        true true () false 0).1 = some .approved ∧
    statusOf "p2"
      (handleProposalDecision (κ := Unit)
        (handleProposalDecision (κ := Unit) [sampleYellowCard .pending] "p2"
          true true () false 0).1 "p2" false true () false 1).1
      = some .rejected ∧
    (handleProposalDecision (κ := Unit)
      (handleProposalDecision (κ := Unit) [sampleYellowCard .pending] "p2"
        true true () false 0).1 "p2" false true () false 1).2
      = [.callback "p2" false ()] := by
  decide

/-- C4 (amended): `handleProposalDecision` itself carries no status guard:
every call applies the decision to the matching card whatever its current
status and performs exactly one external resolution call.  The
double-submit protection sits at the calling surface, where a card's
decision buttons are disabled as soon as its status is no longer
pending. -/
theorem resolve_status_guard_is_at_buttons {κ : Type} (msgs : List Message)
    (pid : String) (accepted : Bool) (hasCb : Bool) (ctx : κ)
    (fails : Bool) (now : Int) (p : AIActionResponse)
    (st : ProposalStatus) (hst : st ≠ .pending) :
    (handleProposalDecision msgs pid accepted hasCb ctx fails now).2.length
      = 1 ∧
    (msgs.any (Message.isProposalWith pid) = true →
      statusOf pid
        (handleProposalDecision msgs pid accepted hasCb ctx fails now).1
        = some (if accepted then .approved else .rejected)) ∧
    ∀ b ∈ proposalActions p st, b.2 = false := by
  have hpend : (st == .pending) = false := by
    cases st with
    | pending => exact absurd rfl hst
    | approved => rfl
    | rejected => rfl
  refine ⟨?_, ?_, ?_⟩
  · simp only [handleProposalDecision]
    by_cases hf : fails = true
    · simp [hf]
    · simp only [Bool.not_eq_true] at hf
      simp [hf]
  · intro hmem
    simp only [handleProposalDecision]
    by_cases hf : fails = true
    · simp only [hf, if_true, resolveFailureMessage]
      rw [statusOf_append_plain]
      exact statusOf_map_applyDecision hmem
    · simp only [Bool.not_eq_true] at hf
      simp only [hf, Bool.false_eq_true, if_false]
      exact statusOf_map_applyDecision hmem
  · intro b hb
    by_cases hred : isRedZone p = true
    · simp [proposalActions, hred, hpend] at hb
      rw [hb]
    · simp only [Bool.not_eq_true] at hred
      simp [proposalActions, hred, hpend] at hb
      rcases hb with hb | hb <;> rw [hb]

/-- C4 witness. -/
theorem resolve_status_guard_is_at_buttons_witness :
    (handleProposalDecision (κ := Unit) [sampleYellowCard .approved] "p2"
      false true () false 3).2.length = 1 ∧
    ([sampleYellowCard .approved].any (Message.isProposalWith "p2") = true →
      statusOf "p2"
        (handleProposalDecision (κ := Unit) [sampleYellowCard .approved]
          "p2" false true () false 3).1
        = some (if false then .approved else .rejected)) ∧
    ∀ b ∈ proposalActions sampleYellowResp .approved, b.2 = false :=
  resolve_status_guard_is_at_buttons [sampleYellowCard .approved] "p2"
    false true () false 3 sampleYellowResp .approved (by decide)

/-- C5: every action response emitted by the (spec-modelled) backend with
`kind = AUTO_EXECUTED` (`type: 'EXECUTE'`) carries `safetyTier = GREEN`,
and never `YELLOW` or `RED`. -/
theorem auto_executed_implies_green (a : ActionDescriptor)
    (content : String) (ta tr : Option JVal) (pid reason : String)
    (hexec : (emitActionResponse a content ta tr pid reason).type
      = .EXECUTE) :
    (emitActionResponse a content ta tr pid reason).safety_level
      = some .GREEN ∧
    (emitActionResponse a content ta tr pid reason).safety_level
      ≠ some .YELLOW ∧
    (emitActionResponse a content ta tr pid reason).safety_level
      ≠ some .RED := by
  cases h : classify a with
  | GREEN => simp [emitActionResponse, h]
  | YELLOW => simp [emitActionResponse, h] at hexec
  | RED => simp [emitActionResponse, h] at hexec

/-- C5 witness: a read-only whitelisted action is emitted as an
auto-executed `GREEN` response. -/
theorem auto_executed_implies_green_witness :
    (emitActionResponse
      { toolName := "list_pathways", mutatesSharedState := false,
        irreversible := false, exportsExternally := false,
        whitelisted := true } "Listed pathways." none none "" "").safety_level
      = some .GREEN ∧
    (emitActionResponse
      { toolName := "list_pathways", mutatesSharedState := false,
        irreversible := false, exportsExternally := false,
        whitelisted := true } "Listed pathways." none none "" "").safety_level
      ≠ some .YELLOW ∧
    (emitActionResponse
      { toolName := "list_pathways", mutatesSharedState := false,
        irreversible := false, exportsExternally := false,
        whitelisted := true } "Listed pathways." none none "" "").safety_level
      ≠ some .RED :=
  auto_executed_implies_green _ "Listed pathways." none none "" "" rfl

/-- C6: an inbound sync that overwrites the local transcript with the
externally owned history sets the one-shot marker, so the notify run it
triggers performs no `onChatUpdate` call; and any notify run — in
particular the one triggered by a single local mutation — performs at
most one `onChatUpdate` call. -/
theorem reconciler_no_oscillation (st : PanelState) (h : List Message)
    (chAfter chLocal : Option (List Message)) (hasCb hasCb' : Bool)
    (f : List Message → List Message)
    (hne : (h == st.messages) = false) :
    (inboundSync st (some h)).messages = h ∧
    (notifyEffect (inboundSync st (some h)) chAfter hasCb).2 = 0 ∧
    (notifyEffect (localMutation st f) chLocal hasCb').2 ≤ 1 := by
  refine ⟨?_, ?_, ?_⟩
  · simp [inboundSync, hne]
  · simp [inboundSync, notifyEffect, hne]
  · simp only [notifyEffect, localMutation]
    split
    · simp
    · split
      · simp
      · split
        · simp
        · split
          · simp
          · simp

/-- C6 witness. -/
theorem reconciler_no_oscillation_witness :
    (inboundSync ⟨[], false⟩ (some [sampleYellowCard .pending])).messages
      = [sampleYellowCard .pending] ∧
    (notifyEffect (inboundSync ⟨[], false⟩
      (some [sampleYellowCard .pending])) (some [sampleYellowCard .pending])
      true).2 = 0 ∧
    (notifyEffect (localMutation ⟨[], false⟩
      (fun ms => ms ++ [sampleYellowCard .pending]))
      (some [sampleYellowCard .pending]) true).2 ≤ 1 :=
  reconciler_no_oscillation ⟨[], false⟩ [sampleYellowCard .pending]
    (some [sampleYellowCard .pending]) (some [sampleYellowCard .pending])
    true true (fun ms => ms ++ [sampleYellowCard .pending]) (by decide)

/-- C7: when the external resolution call fails, the handler appends
exactly one assistant-role message describing the failure and keeps the
optimistic status transition of the resolved card (approved/rejected as
decided, not reverted to pending). -/
theorem resolution_failure_appends_one_message {κ : Type}
    (msgs : List Message) (pid : String) (accepted : Bool) (hasCb : Bool)
    (ctx : κ) (now : Int)
    (hmem : msgs.any (Message.isProposalWith pid) = true) :
    (handleProposalDecision msgs pid accepted hasCb ctx true now).1
      = msgs.map (applyDecision pid accepted)
          ++ [Message.plain .assistant
            "Failed to resolve the proposal. Please try again." now] ∧
    (handleProposalDecision msgs pid accepted hasCb ctx true now).1.length
      = msgs.length + 1 ∧
    statusOf pid
      (handleProposalDecision msgs pid accepted hasCb ctx true now).1
      = some (if accepted then .approved else .rejected) := by
  refine ⟨rfl, ?_, ?_⟩
  · simp [handleProposalDecision, resolveFailureMessage]
  · simp only [handleProposalDecision, resolveFailureMessage, if_true]
    rw [statusOf_append_plain]
    exact statusOf_map_applyDecision hmem

/-- C7 witness. -/
theorem resolution_failure_appends_one_message_witness :
    (handleProposalDecision (κ := Unit) [sampleYellowCard .pending] "p2"
      true true () true 5).1
      = [sampleYellowCard .pending].map (applyDecision "p2" true)
          ++ [Message.plain .assistant
            "Failed to resolve the proposal. Please try again." 5] ∧
    (handleProposalDecision (κ := Unit) [sampleYellowCard .pending] "p2"
      true true () true 5).1.length = 1 + 1 ∧
    statusOf "p2"
      (handleProposalDecision (κ := Unit) [sampleYellowCard .pending] "p2"
        true true () true 5).1
      = some (if true then .approved else .rejected) :=
  resolution_failure_appends_one_message [sampleYellowCard .pending] "p2"
    true true () 5 (by decide)

/-- C8: an inbound response whose receipt timestamp is strictly earlier
than the component's mount time is discarded: processing it leaves the
message list, the loading flag and the activity indicator — the whole
effect state — unchanged. -/
theorem stale_response_discarded (st : ChatState) (r : Resp)
    (mountedAt now ts : Int) (hts : r.__receivedAt = some ts)
    (hlt : ts < mountedAt) :
    processLastResponse st (some r) mountedAt now = st := by
  have hstale : isStaleResp r mountedAt = true := by
    simp [isStaleResp, hts, hlt]
  simp [processLastResponse, hstale]

/-- Sample stale chat response (received at 3, before a mount at 10). -/
def sampleStaleResp : Resp :=
  { cmd := some "CHAT", type := some "CHAT", content := "Stale reply.",
    __receivedAt := some 3 }

/-- C8 witness. -/
theorem stale_response_discarded_witness :
    processLastResponse ⟨[], false, none⟩ (some sampleStaleResp) 10 20
      = ⟨[], false, none⟩ :=
  stale_response_discarded ⟨[], false, none⟩ sampleStaleResp 10 20 3 rfl
    (by decide)

/-- C9: rendering the text `[[GENE:TP53]] is up` produces exactly one
clickable entity span, labeled `TP53`, whose activation performs exactly
one `onEntityClick('GENE', 'TP53')` call. -/
theorem render_gene_tag_single_clickable_span :
    renderEvidenceContent "[[GENE:TP53]] is up"
      = [Block.paragraph [.textSpan "", .entitySpan "GENE" "TP53",
        .textSpan " is up"]] ∧
    renderedEntities (renderEvidenceContent "[[GENE:TP53]] is up")
      = [("GENE", "TP53")] ∧
    spanLabel (.entitySpan "GENE" "TP53") = "TP53" ∧
    activateInline (.entitySpan "GENE" "TP53") = [("GENE", "TP53")] := by
  decide

/-- C10: resolving a proposal id that matches no card in the transcript
leaves the transcript unchanged (when the external call succeeds nothing
is appended either), yet still performs exactly one external resolution
call carrying that id and the ambient analysis context (the injected
callback, or the confirm/reject command fallback). -/
theorem resolve_unknown_id_frame {κ : Type} (msgs : List Message)
    (pid : String) (accepted : Bool) (hasCb : Bool) (ctx : κ) (now : Int)
    (hnone : msgs.any (Message.isProposalWith pid) = false) :
    (handleProposalDecision msgs pid accepted hasCb ctx false now).1
      = msgs ∧
    (handleProposalDecision msgs pid accepted hasCb ctx false now).2
      = [if hasCb then .callback pid accepted ctx
         else .command (if accepted then "CHAT_CONFIRM" else "CHAT_REJECT")
           pid ctx] := by
  constructor
  · simp only [handleProposalDecision, Bool.false_eq_true, if_false]
    exact map_applyDecision_eq_self hnone
  · rfl

/-- C10 witness. -/
theorem resolve_unknown_id_frame_witness :
    (handleProposalDecision (κ := String) [sampleYellowCard .pending]
      "missing-id" true true "ctx" false 9).1
      = [sampleYellowCard .pending] ∧
    (handleProposalDecision (κ := String) [sampleYellowCard .pending]
      "missing-id" true true "ctx" false 9).2
      = [if true then .callback "missing-id" true "ctx"
         else .command (if true then "CHAT_CONFIRM" else "CHAT_REJECT")
           "missing-id" "ctx"] :=
  resolve_unknown_id_frame [sampleYellowCard .pending] "missing-id" true
    true "ctx" 9 (by decide)
